import Mathlib

/-!
# Tenant-resolution subsystem of the yoga-saas backend: a verification development

This file gives a shallow embedding of the tenant/identity resolution
subsystem of the backend (tenant-key computation, settings lookup and
auto-provisioning, identity extraction, the token-verification cache and
the settings update handlers) and proves or refutes the specification's
claims about it.

Modelling conventions, shared by all definitions below:

* JavaScript strings are Lean `String`s.  A JS value that is either a
  string or `undefined` is modelled as `Option String` when the code
  distinguishes the two, and as a plain `String` with `""` standing for
  the absent value when the code only ever tests truthiness (for strings
  JS truthiness is exactly non-emptiness).
* A MongoDB collection is a `List` of records in insertion order;
  `findOne` is `List.find?`, `find` is `List.filter`, document creation
  appends at the end.  A document field that may be missing is an
  `Option`.
* Handlers are pure functions from (request data, store) to
  (result, store).
-/

namespace YogaSaas

/-- JS `a || b` for two string-or-undefined values: the first operand is
returned when it is truthy (a non-empty string), otherwise the second. -/
def jsOr (a b : Option String) : Option String :=
  match a with
  | some s => if s = "" then b else some s
  | none => b

/-- JS truthiness of a string-or-undefined value. -/
def isTruthy (a : Option String) : Bool :=
  match a with
  | some s => s ≠ ""
  | none => false

/-- JS `a || d` where `a` is a string-or-undefined field read and `d` a
string default (the ubiquitous `x?.f || 'default'` pattern). -/
def jsOrD (a : Option String) (d : String) : String :=
  match a with
  | some s => if s = "" then d else s
  | none => d

/-- JS `String.prototype.trim()`: strip leading and trailing whitespace
(modelled over the character data so that it evaluates by kernel
reduction). -/
def jsTrim (s : String) : String :=
  String.mk (((s.data.dropWhile Char.isWhitespace).reverse.dropWhile
    Char.isWhitespace).reverse)

/-! ## Tenant key computation (src/server.js, `computeTenantKey`)

```js
const computeTenantKey = (instanceId, compId) => {
  if (!instanceId) { return 'default'; }
  return `yoga-${instanceId}${compId ? `-${compId}` : ''}`;
};
```
`instanceId` is a string (`""` models absent/falsy); `compId` is a
string-or-undefined value.  -/

/-- Embedding of `computeTenantKey` from src/server.js. -/
def computeTenantKey (instanceId : String) (compId : Option String) : String :=
  if instanceId = "" then "default"
  else "yoga-" ++ instanceId ++
    (match compId with
     | some c => if c = "" then "" else "-" ++ c
     | none => "")

/-- Lift a request-level compId (string with `""` for absent) to the
string-or-undefined argument of `computeTenantKey`; both encodings are
falsy in exactly the same cases. -/
def optCompId (c : String) : Option String :=
  if c = "" then none else some c

/-! ## Settings records (src/models/Settings.js)

A preference group (`layout`, `appearance`, ...) is a bag of string-valued
keys; mongoose leaves a group `undefined` until something writes into it,
hence `Option Group` fields.  `premiumPlanName` is `Option String` with
`none` for a document lacking the field (the schema default is `'free'`,
so documents created through the model always carry it). -/

/-- A nested preference group: an ordered key/value bag, JS-object style. -/
structure Group where
  entries : List (String × String)
deriving DecidableEq

/-- Property read `g[k]`. -/
def Group.get (g : Group) (k : String) : Option String :=
  (g.entries.find? (fun e => e.1 == k)).map (fun e => e.2)

/-- Property write `g[k] = v` (overwrites in place, else appends). -/
def Group.set (g : Group) (k v : String) : Group :=
  if (g.entries.find? (fun e => e.1 == k)).isSome then
    ⟨g.entries.map (fun e => if e.1 == k then (k, v) else e)⟩
  else
    ⟨g.entries ++ [(k, v)]⟩

/-- `Object.keys(src).forEach(key => g[key] = src[key])`. -/
def Group.mergeEntries (g : Group) (src : List (String × String)) : Group :=
  src.foldl (fun acc kv => acc.set kv.1 kv.2) g

/-- Optional-group read `g?.k`. -/
def readGroup (g : Option Group) (k : String) : Option String :=
  match g with
  | some gr => gr.get k
  | none => none

/-- A Settings document.  Identity fields `instanceId`/`compId` use `""`
for unset (every check on them in the code is a truthiness test).
Groups not touched by any modelled handler (`eventCategories`,
`planApproval`, ...) are omitted. -/
structure SettingsRec where
  tenantKey : String
  instanceId : String
  compId : String
  widgetName : String
  premiumPlanName : Option String
  general : Option Group
  notifications : Option Group
  business : Option Group
  layout : Option Group
  appearance : Option Group
  calendar : Option Group
  behavior : Option Group
  uiPreferences : Option Group
deriving DecidableEq

/-- `new Settings({tenantKey})`: schema defaults applied, everything else
unset. -/
def newSettings (k : String) : SettingsRec :=
  { tenantKey := k, instanceId := "", compId := "", widgetName := "",
    premiumPlanName := some "free", general := none, notifications := none,
    business := none, layout := none, appearance := none, calendar := none,
    behavior := none, uiPreferences := none }

/-- The document the widget-data auto-create step builds:
`Settings.create({tenantKey, compId, instanceId, premiumPlanName})`. -/
def mkAutoSettings (k instanceId compId premiumPlan : String) : SettingsRec :=
  { (newSettings k) with
    instanceId := instanceId,
    compId := compId,
    premiumPlanName := some premiumPlan }

/-- `Settings.findOne({tenantKey: k})`. -/
def findByKey (store : List SettingsRec) (k : String) : Option SettingsRec :=
  store.find? (fun r => r.tenantKey == k)

/-- Persisting a `document.save()` of the first record matching `p`. -/
def replaceFirst (p : SettingsRec → Bool) (v : SettingsRec) :
    List SettingsRec → List SettingsRec
  | [] => []
  | x :: xs => if p x then v :: xs else x :: replaceFirst p v xs

/-- Number of stored documents carrying tenant key `k`. -/
def countForKey (store : List SettingsRec) (k : String) : Nat :=
  (store.filter (fun r => r.tenantKey == k)).length

/-- The identity fields of a document, bundled for frame statements. -/
def identityOf (r : SettingsRec) : String × String × String :=
  (r.tenantKey, r.instanceId, r.compId)

/-- The compound index declared in src/models/Settings.js:
`settingsSchema.index({ tenantKey: 1, compId: 1 })` — declared without
`unique`; the adjacent source comment says uniqueness is handled in
application code, not via a unique index. -/
def settingsTenantCompIdIndexUnique : Bool := false

/-! ## Entitlement-tier inheritance (src/server.js, `getPremiumPlanFromInstance`) -/

/-- Second lookup of `getPremiumPlanFromInstance`: any document with this
`instanceId`, using its `premiumPlanName` when truthy. -/
def getPremiumPlanAny (store : List SettingsRec) (instanceId : String) : String :=
  match store.find? (fun r => r.instanceId == instanceId) with
  | some r =>
    match r.premiumPlanName with
    | some p => if p = "" then "free" else p
    | none => "free"
  | none => "free"

/-- Embedding of `getPremiumPlanFromInstance`.  First lookup: a document
with this `instanceId` whose `premiumPlanName` exists and differs from
`'free'` (in the source the query object repeats the `$ne` key, so only
`$ne: 'free'` survives); its value is used when truthy, otherwise fall
back to any document with the `instanceId`, defaulting to `'free'`. -/
def getPremiumPlanFromInstance (store : List SettingsRec) (instanceId : String) : String :=
  if instanceId = "" then "free"
  else
    match store.find? (fun r => r.instanceId == instanceId &&
        (match r.premiumPlanName with
         | some p => p != "free"
         | none => false)) with
    | some r =>
      match r.premiumPlanName with
      | some p => if p = "" then getPremiumPlanAny store instanceId else p
      | none => getPremiumPlanAny store instanceId
    | none => getPremiumPlanAny store instanceId

/-! ## Widget-data settings locator (src/server.js, GET /api/widget-data)

The handler dispatches on the attached identity:
CASE 1 no instanceId, no compId; CASE 2 compId without instanceId
("editor mode"); CASE 3 instanceId present. -/

inductive WidgetDataCase where
  | case1
  | case2
  | case3
deriving DecidableEq

/-- The dispatch at the top of the widget-data handler. -/
def widgetDataCaseOf (instanceId compId : String) : WidgetDataCase :=
  if instanceId = "" ∧ compId = "" then WidgetDataCase.case1
  else if instanceId = "" then WidgetDataCase.case2
  else WidgetDataCase.case3

/-- The document the CASE 3 auto-create step inserts, with its tier
inherited through `getPremiumPlanFromInstance` at creation time. -/
def autoCreateRec (instanceId compId : String) (store : List SettingsRec) : SettingsRec :=
  mkAutoSettings (computeTenantKey instanceId (optCompId compId)) instanceId compId
    (getPremiumPlanFromInstance store instanceId)

/-- Read-only part of CASE 3: the `$in` query over the two candidate keys,
the exact/fallback selection, then the FALLBACK queries by raw
`instanceId` and raw `compId`. -/
def widgetDataCase3Read (instanceId compId : String) (store : List SettingsRec) :
    Option SettingsRec :=
  let desiredKey := computeTenantKey instanceId (optCompId compId)
  let instanceFallbackKey := computeTenantKey instanceId none
  let keysToQuery :=
    desiredKey :: (if instanceFallbackKey ≠ desiredKey then [instanceFallbackKey] else [])
  let configs := store.filter (fun r => keysToQuery.contains r.tenantKey)
  let saved0 :=
    match configs.find? (fun r => r.tenantKey == desiredKey) with
    | some r => some r
    | none => configs.find? (fun r => r.tenantKey == instanceFallbackKey)
  match saved0 with
  | some r => some r
  | none =>
    if instanceId ≠ "" ∨ compId ≠ "" then
      match (if instanceId ≠ ""
             then store.find? (fun r => r.instanceId == instanceId)
             else none) with
      | some r => some r
      | none =>
        if compId ≠ "" then store.find? (fun r => r.compId == compId) else none
    else none

/-- Outcome of the locate step: the record the response is built from
(none = transient defaults), and the store afterwards. -/
structure LocateResult where
  found : Option SettingsRec
  store : List SettingsRec
deriving DecidableEq

/-- CASE 3 of the widget-data handler: read, then AUTO-CREATE when both
identifiers are present and nothing was found. -/
def widgetDataCase3 (instanceId compId : String) (store : List SettingsRec) : LocateResult :=
  match widgetDataCase3Read instanceId compId store with
  | some r => ⟨some r, store⟩
  | none =>
    if compId ≠ "" ∧ instanceId ≠ "" then
      let newRec := autoCreateRec instanceId compId store
      ⟨some newRec, store ++ [newRec]⟩
    else ⟨none, store⟩

/-- The locator algorithm exactly as the specification words it for C1:
exact key, instanceId-only key, then auto-create — nothing in between. -/
def specLocateClaim (instanceId compId : String) (store : List SettingsRec) : LocateResult :=
  match findByKey store (computeTenantKey instanceId (optCompId compId)) with
  | some r => ⟨some r, store⟩
  | none =>
    match (if compId ≠ ""
           then findByKey store (computeTenantKey instanceId none)
           else none) with
    | some r => ⟨some r, store⟩
    | none =>
      if instanceId ≠ "" ∧ compId ≠ "" then
        let newRec := autoCreateRec instanceId compId store
        ⟨some newRec, store ++ [newRec]⟩
      else ⟨none, store⟩

/-- The locator algorithm as amended for C1: between the instanceId-only
key lookup and auto-create the code interposes two further lookups, by
raw `instanceId` and then by raw `compId`. -/
def specLocateAmended (instanceId compId : String) (store : List SettingsRec) : LocateResult :=
  match findByKey store (computeTenantKey instanceId (optCompId compId)) with
  | some r => ⟨some r, store⟩
  | none =>
    match (if compId ≠ ""
           then findByKey store (computeTenantKey instanceId none)
           else none) with
    | some r => ⟨some r, store⟩
    | none =>
      match store.find? (fun r => r.instanceId == instanceId) with
      | some r => ⟨some r, store⟩
      | none =>
        match (if compId ≠ ""
               then store.find? (fun r => r.compId == compId)
               else none) with
        | some r => ⟨some r, store⟩
        | none =>
          if instanceId ≠ "" ∧ compId ≠ "" then
            let newRec := autoCreateRec instanceId compId store
            ⟨some newRec, store ++ [newRec]⟩
          else ⟨none, store⟩

/-! ## Widget-data CASE 2 ("editor mode", compId without instanceId)

`Settings.findOne({ compId })` — any document with this compId across
all instances — and the response settings are built from it without any
ownership check.  The response fields below are the ones the modelled
record carries; the remaining response fields are constants or follow the
identical `config.group?.key || default` pattern. -/

structure Case2Settings where
  defaultMode : String
  primaryColor : String
  fontSize : String
  weekStartsOn : String
  timeFormat : String
  language : String
  clickAction : String
  business : Option Group
  premiumPlanName : String
deriving DecidableEq

/-- Response settings built from a found document in CASE 2. -/
def case2SettingsOf (config : SettingsRec) : Case2Settings :=
  { defaultMode := jsOrD (readGroup config.layout "defaultMode") "calendar",
    primaryColor := jsOrD (readGroup config.uiPreferences "primaryColor") "#4A90A4",
    fontSize := jsOrD (readGroup config.uiPreferences "fontSize") "medium",
    weekStartsOn := jsOrD (readGroup config.calendar "weekStartsOn") "sunday",
    timeFormat := jsOrD (readGroup config.calendar "timeFormat") "12h",
    language := jsOrD (readGroup config.uiPreferences "language") "en",
    clickAction := jsOrD (readGroup config.uiPreferences "clickAction") "tooltip",
    business := some (config.business.getD ⟨[]⟩),
    premiumPlanName := jsOrD config.premiumPlanName "free" }

/-- The `defaultSettings` literal returned when no document matches. -/
def defaultCase2Settings : Case2Settings :=
  { defaultMode := "calendar", primaryColor := "#4A90A4", fontSize := "medium",
    weekStartsOn := "sunday", timeFormat := "12h", language := "en",
    clickAction := "tooltip", business := none, premiumPlanName := "free" }

/-- CASE 2 of the widget-data handler. -/
def widgetDataCase2 (compId : String) (store : List SettingsRec) : Case2Settings :=
  match store.find? (fun r => r.compId == compId) with
  | some config => case2SettingsOf config
  | none => defaultCase2Settings

/-! ## Settings update handlers (src/routes/settings.js) -/

/-- Body of a POST /settings/ui-preferences request: each preference
group is either absent or a JS object, modelled as its key/value list
(an empty list is a present-but-empty object, which is truthy). -/
structure UiPrefBody where
  layout : Option (List (String × String))
  appearance : Option (List (String × String))
  uiPreferences : Option (List (String × String))
  calendar : Option (List (String × String))
  behavior : Option (List (String × String))
deriving DecidableEq

/-- A body mentioning no group at all. -/
def emptyUiPrefBody : UiPrefBody :=
  { layout := none, appearance := none, uiPreferences := none,
    calendar := none, behavior := none }

/-- `if (req.body.g) { if (!settings.g) settings.g = {}; ...merge... }`. -/
def applyGroup (cur : Option Group) (upd : Option (List (String × String))) : Option Group :=
  match upd with
  | none => cur
  | some kvs => some ((cur.getD ⟨[]⟩).mergeEntries kvs)

/-- The appearance branch of POST /ui-preferences: each supplied key is
written into `appearance`, and `primaryColor` is additionally mirrored
into `uiPreferences.primaryColor`. -/
def applyAppearance (app ui : Group) (kvs : List (String × String)) : Group × Group :=
  kvs.foldl
    (fun p kv =>
      (p.1.set kv.1 kv.2,
       if kv.1 == "primaryColor" then p.2.set "primaryColor" kv.2 else p.2))
    (app, ui)

/-- Embedding of the mutation POST /settings/ui-preferences performs on
the matched-or-created document (db connected).  Identity fields are
assigned from the request whenever truthy; then each supplied group is
merged, appearance with the primaryColor mirror. -/
def postUiPreferences (instanceId compId : String) (body : UiPrefBody)
    (s : SettingsRec) : SettingsRec :=
  let s := if instanceId ≠ "" then { s with instanceId := instanceId } else s
  let s := if compId ≠ "" then { s with compId := compId } else s
  let s := { s with layout := applyGroup s.layout body.layout }
  let s :=
    match body.appearance with
    | none => s
    | some kvs =>
      let res := applyAppearance (s.appearance.getD ⟨[]⟩) (s.uiPreferences.getD ⟨[]⟩) kvs
      { s with appearance := some res.1, uiPreferences := some res.2 }
  let s := { s with uiPreferences := applyGroup s.uiPreferences body.uiPreferences }
  let s := { s with calendar := applyGroup s.calendar body.calendar }
  { s with behavior := applyGroup s.behavior body.behavior }

/-- What a settings write reports to the caller. -/
inductive WriteOutcome where
  | ok (persisted : Bool)
  | serviceUnavailable
  | badRequest
deriving DecidableEq

/-- Full POST /settings/ui-preferences handler.  When the database is
not connected the handler responds 200 `{success: true, message:
'Database not connected - changes not persisted', ...}` without writing;
otherwise it finds-or-creates by tenantKey and saves. -/
def postUiPreferencesHandler (dbConnected : Bool) (tenantKey instanceId compId : String)
    (body : UiPrefBody) (store : List SettingsRec) : WriteOutcome × List SettingsRec :=
  if !dbConnected then (WriteOutcome.ok false, store)
  else
    match findByKey store tenantKey with
    | some r =>
      (WriteOutcome.ok true,
       replaceFirst (fun x => x.tenantKey == tenantKey)
         (postUiPreferences instanceId compId body r) store)
    | none =>
      (WriteOutcome.ok true,
       store ++ [postUiPreferences instanceId compId body (newSettings tenantKey)])

/-- Body of a PUT /settings request (dashboard general settings). -/
structure GeneralBody where
  general : Option (List (String × String))
  notifications : Option (List (String × String))
  business : Option (List (String × String))
deriving DecidableEq

/-- PUT /settings: 503 when the database is unavailable, otherwise
find-or-create by tenantKey and spread-merge the supplied groups. -/
def putSettingsHandler (dbConnected : Bool) (tenantKey : String) (body : GeneralBody)
    (store : List SettingsRec) : WriteOutcome × List SettingsRec :=
  if !dbConnected then (WriteOutcome.serviceUnavailable, store)
  else
    let upd := fun (s : SettingsRec) =>
      { s with general := applyGroup s.general body.general,
               notifications := applyGroup s.notifications body.notifications,
               business := applyGroup s.business body.business }
    match findByKey store tenantKey with
    | some r =>
      (WriteOutcome.ok true, replaceFirst (fun x => x.tenantKey == tenantKey) (upd r) store)
    | none => (WriteOutcome.ok true, store ++ [upd (newSettings tenantKey)])

/-- PUT /settings/ui-preferences: validates `instanceId` and
`premiumPlanName`, 503 when the database is unavailable, otherwise
`updateMany({instanceId}, {$set: {premiumPlanName}})`. -/
def putUiPreferencesHandler (dbConnected : Bool) (instanceId premiumPlanName : String)
    (store : List SettingsRec) : WriteOutcome × List SettingsRec :=
  if instanceId = "" then (WriteOutcome.badRequest, store)
  else if premiumPlanName = "" then (WriteOutcome.badRequest, store)
  else if !dbConnected then (WriteOutcome.serviceUnavailable, store)
  else
    (WriteOutcome.ok true,
     store.map (fun r =>
       if r.instanceId == instanceId
       then { r with premiumPlanName := some premiumPlanName }
       else r))

/-- The existing-document branch of POST /api/widgets/register:
`instanceId`/`compId` are filled in only when currently unset. -/
def registerExisting (instanceId compId : String) (s : SettingsRec) : SettingsRec :=
  let s := if s.instanceId = "" then { s with instanceId := instanceId } else s
  if s.compId = "" then { s with compId := compId } else s

/-! ## compId extraction (src/middleware/wixSdkAuth.js, `extractCompId`) -/

/-- A request-supplied value as Express hands it over (header or query
parameter): absent, a string, or an array of strings. -/
inductive HeaderVal where
  | missing
  | str (s : String)
  | arr (l : List String)
deriving DecidableEq

/-- JS `a || b` over raw request values: a non-empty string or any array
(even an empty one) is truthy; `undefined` and `""` are falsy. -/
def jsOrV (a b : HeaderVal) : HeaderVal :=
  match a with
  | HeaderVal.missing => b
  | HeaderVal.str s => if s = "" then b else HeaderVal.str s
  | HeaderVal.arr l => HeaderVal.arr l

/-- The request material `extractCompId` consults.  Header and query
fields carry the raw Express value (string, array, or absent); the body
field is `none` when there is no body or `body.compId` is not a string
(it undergoes only a `typeof` check, no fold). -/
structure CompIdReq where
  headerCompId : HeaderVal
  queryCompId : HeaderVal
  queryCompIdUnderscore : HeaderVal
  queryCompIdDash : HeaderVal
  bodyCompId : Option String
deriving DecidableEq

/-- Last fallback of `extractCompId`: the request-body field. -/
def extractCompIdBody (r : CompIdReq) : Option String :=
  match r.bodyCompId with
  | some s => if jsTrim s ≠ "" then some (jsTrim s) else none
  | none => none

/-- Legacy query-parameter fallback: the source computes
`req.query.comp_id || req.query['comp-id']` on the raw values first and
only then applies the `typeof === 'string'` and trim tests, so a truthy
non-string `comp_id` masks `comp-id` and falls through to the body. -/
def extractCompIdAlt (r : CompIdReq) : Option String :=
  match jsOrV r.queryCompIdUnderscore r.queryCompIdDash with
  | HeaderVal.str s => if jsTrim s ≠ "" then some (jsTrim s) else extractCompIdBody r
  | HeaderVal.missing => extractCompIdBody r
  | HeaderVal.arr _ => extractCompIdBody r

/-- Primary query-parameter fallback: `req.query.compId`, accepted only
when it is a string (`typeof === 'string'`). -/
def extractCompIdQuery (r : CompIdReq) : Option String :=
  match r.queryCompId with
  | HeaderVal.str s => if jsTrim s ≠ "" then some (jsTrim s) else extractCompIdAlt r
  | HeaderVal.missing => extractCompIdAlt r
  | HeaderVal.arr _ => extractCompIdAlt r

/-- Embedding of `extractCompId`: the `x-wix-comp-id` header (string
branch trims and tests, array branch tests the raw first element and
returns it trimmed), then the query parameters, then the body. -/
def extractCompId (r : CompIdReq) : Option String :=
  match r.headerCompId with
  | HeaderVal.str s => if jsTrim s ≠ "" then some (jsTrim s) else extractCompIdQuery r
  | HeaderVal.arr [] => extractCompIdQuery r
  | HeaderVal.arr (x :: _) => if x ≠ "" then some (jsTrim x) else extractCompIdQuery r
  | HeaderVal.missing => extractCompIdQuery r

/-- The header candidate as the specification sees it (the value, or the
first element when the header arrived as an array). -/
def headerCandidate (h : HeaderVal) : Option String :=
  match h with
  | HeaderVal.missing => none
  | HeaderVal.str s => some s
  | HeaderVal.arr [] => none
  | HeaderVal.arr (x :: _) => some x

/-- First candidate whose trimmed value is non-empty, returned trimmed;
empty and whitespace-only candidates are skipped as absent. -/
def firstNonEmptyTrimmed : List (Option String) → Option String
  | [] => none
  | none :: rest => firstNonEmptyTrimmed rest
  | some s :: rest => if jsTrim s ≠ "" then some (jsTrim s) else firstNonEmptyTrimmed rest

/-- The query-parameter candidate as the specification sees it.  The
query branches of the code accept only string-typed values
(`typeof === 'string'`, with no analogue of the header's `[0]` array
handling), so a non-string (array) query value contributes no
candidate. -/
def queryCandidate (v : HeaderVal) : Option String :=
  match v with
  | HeaderVal.str s => some s
  | HeaderVal.missing => none
  | HeaderVal.arr _ => none

/-- The claim's candidate order for C8: header, primary query parameter,
legacy alternate query parameters, body. -/
def specCandidates (r : CompIdReq) : List (Option String) :=
  [headerCandidate r.headerCompId, queryCandidate r.queryCompId,
   queryCandidate r.queryCompIdUnderscore, queryCandidate r.queryCompIdDash,
   r.bodyCompId]

/-- compId extraction exactly as the specification words it for C8. -/
def specExtractCompId (r : CompIdReq) : Option String :=
  firstNonEmptyTrimmed (specCandidates r)

/-! ## Token-verification cache (src/middleware/wixSdkAuth.js, `verifyAccessToken`)

External verification (the Wix token-info endpoint plus the elevated SDK
client) is an oracle parameter `String → Option WixVerifyResult`
(`none` = verification throws).  The cache is keyed by
`'wix_token_' + accessToken.slice(-20)`. -/

/-- The identity fields a successful verification yields. -/
structure WixVerifyResult where
  instanceId : String
  appDefId : Option String
  vendorProductId : Option String
deriving DecidableEq

/-- `accessToken.slice(-20)`: the last 20 characters (the whole string
when shorter). -/
def tokenFingerprint (t : String) : String :=
  String.mk (t.data.drop (t.data.length - 20))

/-- The node-cache key for a credential. -/
def tokenCacheKey (t : String) : String :=
  "wix_token_" ++ tokenFingerprint t

/-- The in-memory verification cache (newest entry first). -/
abbrev TokenCache := List (String × WixVerifyResult)

/-- `tokenCache.get(k)`. -/
def cacheGet (cache : TokenCache) (k : String) : Option WixVerifyResult :=
  (cache.find? (fun e => e.1 == k)).map (fun e => e.2)

/-- `tokenCache.set(k, v)` (a later entry shadows an earlier one). -/
def cacheSet (cache : TokenCache) (k : String) (v : WixVerifyResult) : TokenCache :=
  (k, v) :: cache

/-- Embedding of `verifyAccessToken`: answer from the cache when the
fingerprint key is present, otherwise verify through the oracle and
cache a successful result. -/
def verifyAccessToken (oracle : String → Option WixVerifyResult)
    (cache : TokenCache) (t : String) : Option WixVerifyResult × TokenCache :=
  match cacheGet cache (tokenCacheKey t) with
  | some v => (some v, cache)
  | none =>
    match oracle t with
    | some r => (some r, cacheSet cache (tokenCacheKey t) r)
    | none => (none, cache)

/-- Every cache entry was produced by a successful verification of some
credential with that cache key. -/
def CacheConsistent (oracle : String → Option WixVerifyResult) (cache : TokenCache) : Prop :=
  ∀ k v, cacheGet cache k = some v → ∃ t, tokenCacheKey t = k ∧ oracle t = some v

/-! ## Legacy tenant middleware (src/unnamed/part_000, `attachTenantInfo`) -/

/-- Fields the middleware reads out of a decoded Wix instance payload. -/
structure InstanceData where
  instanceId : Option String
  siteOwnerId : Option String
  uid : Option String
deriving DecidableEq

/-- The request material `extractTenantInfo` consults. -/
structure TenantReq where
  headerCompId : Option String
  queryCompId : Option String
  headerInstance : Option String
  queryInstance : Option String
  headerTenantId : Option String
deriving DecidableEq

/-- The bundle `extractTenantInfo` returns (`instanceVal` is the source's
`instance` field, renamed because `instance` is a Lean keyword). -/
structure TenantInfo where
  compId : Option String
  instanceVal : Option String
  tenantId : Option String
deriving DecidableEq

/-- Embedding of `extractTenantInfo`; `decode` stands for the base64 +
JSON decoding of the raw instance token (`none` = decode failure). -/
def extractTenantInfo (decode : String → Option InstanceData) (r : TenantReq) : TenantInfo :=
  let compId := jsOr r.headerCompId r.queryCompId
  let inst := jsOr r.headerInstance r.queryInstance
  let instData :=
    if isTruthy inst then
      match inst with
      | some s => decode s
      | none => none
    else none
  let tenantId :=
    jsOr r.headerTenantId
      (match instData with
       | some d => jsOr d.instanceId (jsOr d.siteOwnerId d.uid)
       | none => none)
  ⟨compId, inst, tenantId⟩

/-- Embedding of `attachTenantInfo`: the tenant key it attaches to the
request. -/
def attachTenantInfo (decode : String → Option InstanceData) (r : TenantReq) : String :=
  let t := extractTenantInfo decode r
  if isTruthy t.compId ∧ isTruthy t.instanceVal then
    if t.compId = some "default" ∧ t.instanceVal = some "default" then "default"
    else t.compId.getD "" ++ ":" ++ t.instanceVal.getD ""
  else if isTruthy t.tenantId then t.tenantId.getD ""
  else "default"

/-! ## Concurrency model for the auto-create race (C3)

Each first request for a pair runs the CASE 3 read
(`widgetDataCase3Read`) and then, if it found nothing, inserts the
auto-created document (tier inheritance evaluated against the store at
insert time).  Requests interleave at these two store accesses; a
schedule is a list of booleans (true = request 1 moves). -/

inductive ThreadPhase where
  | ready
  | readDone (found : Option SettingsRec)
  | finished
deriving DecidableEq

structure RaceState where
  store : List SettingsRec
  t1 : ThreadPhase
  t2 : ThreadPhase
deriving DecidableEq

/-- One store access of a single request. -/
def threadStep (instanceId compId : String) (store : List SettingsRec) :
    ThreadPhase → ThreadPhase × List SettingsRec
  | ThreadPhase.ready =>
    (ThreadPhase.readDone (widgetDataCase3Read instanceId compId store), store)
  | ThreadPhase.readDone none =>
    if compId ≠ "" ∧ instanceId ≠ "" then
      (ThreadPhase.finished, store ++ [autoCreateRec instanceId compId store])
    else (ThreadPhase.finished, store)
  | ThreadPhase.readDone (some _) => (ThreadPhase.finished, store)
  | ThreadPhase.finished => (ThreadPhase.finished, store)

/-- Let the scheduled request take its next store access. -/
def raceStep (instanceId compId : String) (s : RaceState) (choice : Bool) : RaceState :=
  if choice then
    let p := threadStep instanceId compId s.store s.t1
    { store := p.2, t1 := p.1, t2 := s.t2 }
  else
    let p := threadStep instanceId compId s.store s.t2
    { store := p.2, t1 := s.t1, t2 := p.1 }

/-- Run a schedule. -/
def raceRun (instanceId compId : String) (sched : List Bool) (s : RaceState) : RaceState :=
  sched.foldl (raceStep instanceId compId) s

/-- Two first-ever requests for the pair over a store not containing it. -/
def initRace (store : List SettingsRec) : RaceState :=
  ⟨store, ThreadPhase.ready, ThreadPhase.ready⟩

/-! ## Helper lemmas -/

/-- Strings with equal character data are equal. -/
theorem string_data_inj {a b : String} (h : a.data = b.data) : a = b := by
  cases a
  cases b
  simp only at h
  rw [h]

/-- A list with a distinguished separator character that occurs in neither
prefix splits uniquely. -/
theorem sep_split (sep : Char) :
    ∀ (a b x y : List Char), sep ∉ a → sep ∉ b →
      a ++ sep :: x = b ++ sep :: y → a = b ∧ x = y := by
  intro a
  induction a with
  | nil =>
    intro b x y _ hb h
    cases b with
    | nil => simpa using h
    | cons d bs =>
      simp only [List.nil_append, List.cons_append, List.cons.injEq] at h
      exact absurd (h.1 ▸ List.mem_cons_self d bs) hb
  | cons c as ih =>
    intro b x y ha hb h
    cases b with
    | nil =>
      simp only [List.cons_append, List.nil_append, List.cons.injEq] at h
      exact absurd (h.1 ▸ List.mem_cons_self c as) ha
    | cons d bs =>
      simp only [List.cons_append, List.cons.injEq] at h
      have ha' : sep ∉ as := fun hmem => ha (List.mem_cons_of_mem c hmem)
      have hb' : sep ∉ bs := fun hmem => hb (List.mem_cons_of_mem d hmem)
      have := ih bs x y ha' hb' h.2
      exact ⟨by rw [h.1, this.1], this.2⟩

/-- Cancelling a common prefix of strings. -/
theorem string_append_cancel {p a b : String} (h : p ++ a = p ++ b) : a = b := by
  apply string_data_inj
  have hd := congrArg String.data h
  simp only [String.data_append] at hd
  exact List.append_cancel_left hd

/-- The full key for a non-empty pair decomposes as data lists. -/
theorem computeTenantKey_data (i c : String) (hi : i ≠ "") (hc : c ≠ "") :
    (computeTenantKey i (some c)).data =
      "yoga-".data ++ (i.data ++ '-' :: c.data) := by
  simp only [computeTenantKey, if_neg hi, if_neg hc]
  simp [String.data_append, List.append_assoc]

/-- The instanceId-only key decomposes as data lists. -/
theorem computeTenantKey_none_data (i : String) (hi : i ≠ "") :
    (computeTenantKey i none).data = "yoga-".data ++ i.data := by
  simp [computeTenantKey, if_neg hi, String.data_append]

/-- The per-widget key never collides with the per-site key of the same
instance (the widget key is strictly longer). -/
theorem computeTenantKey_some_ne_none (i c : String) (hi : i ≠ "") (hc : c ≠ "") :
    computeTenantKey i (some c) ≠ computeTenantKey i none := by
  intro h
  have hd := congrArg String.data h
  rw [computeTenantKey_data i c hi hc, computeTenantKey_none_data i hi] at hd
  have hlen := congrArg List.length hd
  simp [List.length_append] at hlen

/-! ## C2: determinism and injectivity of the tenant key -/

/-- C2 (counterexample): the tenant-key computation is not injective on
distinct `(instanceId, compId)` pairs — a hyphen inside the instanceId
shifts the boundary, so `("a-b","c")` and `("a","b-c")` share the key
`"yoga-a-b-c"`; moreover a present-but-empty compId yields the same key
as an absent compId, not a distinct finer key. -/
theorem c2_tenant_key_counterexample :
    (("a-b", "c") ≠ (("a", "b-c") : String × String))
    ∧ computeTenantKey "a-b" (some "c") = computeTenantKey "a" (some "b-c")
    ∧ computeTenantKey "a" (some "") = computeTenantKey "a" none := by
  refine ⟨by decide, by decide, by decide⟩

/-- C2 (amended): for non-empty instanceIds that contain no hyphen and
non-empty compIds, the tenant key is deterministic, distinct pairs give
distinct keys, and the key with compId present differs from the coarser
key with compId absent. -/
theorem c2_tenant_key_amended (i1 i2 c1 c2 : String)
    (hi1 : i1 ≠ "") (hi2 : i2 ≠ "")
    (hd1 : ('-' : Char) ∉ i1.data) (hd2 : ('-' : Char) ∉ i2.data)
    (hc1 : c1 ≠ "") (hc2 : c2 ≠ "") :
    computeTenantKey i1 (some c1) = computeTenantKey i1 (some c1)
    ∧ (computeTenantKey i1 (some c1) = computeTenantKey i2 (some c2) →
        i1 = i2 ∧ c1 = c2)
    ∧ computeTenantKey i1 (some c1) ≠ computeTenantKey i1 none := by
  refine ⟨rfl, ?_, computeTenantKey_some_ne_none i1 c1 hi1 hc1⟩
  intro h
  have hd := congrArg String.data h
  rw [computeTenantKey_data i1 c1 hi1 hc1, computeTenantKey_data i2 c2 hi2 hc2] at hd
  have hsplit := sep_split '-' i1.data i2.data c1.data c2.data hd1 hd2
    (List.append_cancel_left hd)
  exact ⟨string_data_inj hsplit.1, string_data_inj hsplit.2⟩

/-- C2 (witness): the amended statement at concrete keys. -/
theorem c2_tenant_key_witness :
    computeTenantKey "site1" (some "w1") = computeTenantKey "site1" (some "w1")
    ∧ (computeTenantKey "site1" (some "w1") = computeTenantKey "site2" (some "w2") →
        ("site1" : String) = "site2" ∧ ("w1" : String) = "w2")
    ∧ computeTenantKey "site1" (some "w1") ≠ computeTenantKey "site1" none :=
  c2_tenant_key_amended "site1" "site2" "w1" "w2"
    (by decide) (by decide) (by decide) (by decide) (by decide) (by decide)

/-! ## C4: behaviour of the settings write handlers when the store is down -/

/-- C4 (counterexample): with the database unavailable,
POST /settings/ui-preferences reports success (HTTP 200,
`success: true`, nothing persisted) instead of a retryable
service-unavailable failure. -/
theorem c4_store_unavailable_counterexample :
    (postUiPreferencesHandler false "default" "" "" emptyUiPrefBody []).1
      = WriteOutcome.ok false
    ∧ (postUiPreferencesHandler false "default" "" "" emptyUiPrefBody []).1
      ≠ WriteOutcome.serviceUnavailable := by
  refine ⟨rfl, by decide⟩

/-- C4 (amended): when the store is unavailable, PUT /settings and
PUT /settings/ui-preferences fail with a 503 service-unavailable error
and leave the store untouched, but POST /settings/ui-preferences
responds with success while persisting nothing. -/
theorem c4_store_unavailable_amended (tenantKey instanceId compId premiumPlanName : String)
    (gb : GeneralBody) (ub : UiPrefBody) (store : List SettingsRec)
    (hi : instanceId ≠ "") (hp : premiumPlanName ≠ "") :
    (putSettingsHandler false tenantKey gb store).1 = WriteOutcome.serviceUnavailable
    ∧ (putSettingsHandler false tenantKey gb store).2 = store
    ∧ (putUiPreferencesHandler false instanceId premiumPlanName store).1
        = WriteOutcome.serviceUnavailable
    ∧ (putUiPreferencesHandler false instanceId premiumPlanName store).2 = store
    ∧ (postUiPreferencesHandler false tenantKey instanceId compId ub store)
        = (WriteOutcome.ok false, store) := by
  refine ⟨rfl, rfl, ?_, ?_, rfl⟩ <;>
    simp [putUiPreferencesHandler, hi, hp]

/-- C4 (witness): the amended statement at concrete inputs. -/
theorem c4_store_unavailable_witness :
    (putSettingsHandler false "default" ⟨none, none, none⟩ []).1
      = WriteOutcome.serviceUnavailable
    ∧ (putSettingsHandler false "default" ⟨none, none, none⟩ []).2 = []
    ∧ (putUiPreferencesHandler false "site1" "light" []).1
        = WriteOutcome.serviceUnavailable
    ∧ (putUiPreferencesHandler false "site1" "light" []).2 = []
    ∧ (postUiPreferencesHandler false "default" "site1" "w1" emptyUiPrefBody [])
        = (WriteOutcome.ok false, []) :=
  c4_store_unavailable_amended "default" "site1" "w1" "light"
    ⟨none, none, none⟩ emptyUiPrefBody [] (by decide) (by decide)

/-! Projection lemmas for the two handlers that mutate existing records. -/

theorem registerExisting_tenantKey (i c : String) (s : SettingsRec) :
    (registerExisting i c s).tenantKey = s.tenantKey := by
  simp only [registerExisting]
  split_ifs <;> rfl

theorem registerExisting_instanceId (i c : String) (s : SettingsRec) :
    (registerExisting i c s).instanceId = if s.instanceId = "" then i else s.instanceId := by
  simp only [registerExisting]
  split_ifs <;> rfl

theorem registerExisting_compId (i c : String) (s : SettingsRec) :
    (registerExisting i c s).compId = if s.compId = "" then c else s.compId := by
  simp only [registerExisting]
  split_ifs <;> rfl

theorem postUiPreferences_tenantKey (i c : String) (b : UiPrefBody) (s : SettingsRec) :
    (postUiPreferences i c b s).tenantKey = s.tenantKey := by
  cases hba : b.appearance <;> simp only [postUiPreferences, hba] <;> split_ifs <;> rfl

theorem postUiPreferences_instanceId (i c : String) (b : UiPrefBody) (s : SettingsRec) :
    (postUiPreferences i c b s).instanceId = if i = "" then s.instanceId else i := by
  cases hba : b.appearance <;> simp only [postUiPreferences, hba] <;> split_ifs <;> simp_all

theorem postUiPreferences_compId (i c : String) (b : UiPrefBody) (s : SettingsRec) :
    (postUiPreferences i c b s).compId = if c = "" then s.compId else c := by
  cases hba : b.appearance <;> simp only [postUiPreferences, hba] <;> split_ifs <;> simp_all

theorem postUiPreferences_layout (i c : String) (b : UiPrefBody) (s : SettingsRec) :
    (postUiPreferences i c b s).layout = applyGroup s.layout b.layout := by
  cases hba : b.appearance <;> simp only [postUiPreferences, hba] <;> split_ifs <;> rfl

theorem postUiPreferences_calendar (i c : String) (b : UiPrefBody) (s : SettingsRec) :
    (postUiPreferences i c b s).calendar = applyGroup s.calendar b.calendar := by
  cases hba : b.appearance <;> simp only [postUiPreferences, hba] <;> split_ifs <;> rfl

theorem postUiPreferences_behavior (i c : String) (b : UiPrefBody) (s : SettingsRec) :
    (postUiPreferences i c b s).behavior = applyGroup s.behavior b.behavior := by
  cases hba : b.appearance <;> simp only [postUiPreferences, hba] <;> split_ifs <;> rfl

theorem postUiPreferences_appearance_none (i c : String) (b : UiPrefBody) (s : SettingsRec)
    (hba : b.appearance = none) :
    (postUiPreferences i c b s).appearance = s.appearance := by
  simp only [postUiPreferences, hba]
  split_ifs <;> rfl

theorem postUiPreferences_ui_none (i c : String) (b : UiPrefBody) (s : SettingsRec)
    (hbu : b.uiPreferences = none) (hba : b.appearance = none) :
    (postUiPreferences i c b s).uiPreferences = s.uiPreferences := by
  simp only [postUiPreferences, hba, hbu]
  split_ifs <;> rfl

theorem postUiPreferences_ui_mirror (i c : String) (b : UiPrefBody) (s : SettingsRec)
    (kvs : List (String × String))
    (hbu : b.uiPreferences = none) (hba : b.appearance = some kvs) :
    (postUiPreferences i c b s).uiPreferences
      = some (applyAppearance (s.appearance.getD ⟨[]⟩) (s.uiPreferences.getD ⟨[]⟩) kvs).2 := by
  simp only [postUiPreferences, hba, hbu]
  split_ifs <;> rfl

/-! ## C6: treatment of the identity fields on existing records -/

/-- The premium-plan bulk write rewrites `premiumPlanName` only, so the
identity fields of every mapped document are unchanged. -/
theorem map_identityOf_premium (i p : String) (store : List SettingsRec) :
    (store.map (fun r => if r.instanceId == i
        then { r with premiumPlanName := some p } else r)).map identityOf
      = store.map identityOf := by
  induction store with
  | nil => rfl
  | cons x xs ih =>
    have hhead : identityOf (if (x.instanceId == i) = true
        then { x with premiumPlanName := some p } else x) = identityOf x := by
      split_ifs <;> rfl
    simp only [List.map_cons, hhead, ih]

/-- PUT /settings/ui-preferences never alters the identity fields of any
stored document (in every branch: validation failure, store outage, or
the `updateMany` on `premiumPlanName`). -/
theorem putUiPreferencesHandler_identity (db : Bool) (i p : String)
    (store : List SettingsRec) :
    ((putUiPreferencesHandler db i p store).2).map identityOf = store.map identityOf := by
  unfold putUiPreferencesHandler
  split_ifs <;> first
    | rfl
    | exact map_identityOf_premium i p store

/-- Saving a document with unchanged identity fields over the first
match by tenant key leaves the store's identity fields unchanged. -/
theorem replaceFirst_identity (k : String) (v : SettingsRec) :
    ∀ (store : List SettingsRec) (r : SettingsRec),
      findByKey store k = some r → identityOf v = identityOf r →
      (replaceFirst (fun x => x.tenantKey == k) v store).map identityOf
        = store.map identityOf := by
  intro store
  induction store with
  | nil =>
    intro r hf _
    cases hf
  | cons x xs ih =>
    intro r hf hid
    by_cases hx : (x.tenantKey == k) = true
    · have hrx : r = x := by
        have hfc : List.find? (fun y => y.tenantKey == k) (x :: xs) = some x :=
          List.find?_cons_of_pos _ hx
        unfold findByKey at hf
        rw [hfc] at hf
        exact (Option.some.inj hf).symm
      subst hrx
      unfold replaceFirst
      rw [if_pos hx]
      simp [hid]
    · have hf2 : findByKey xs k = some r := by
        have hfc : List.find? (fun y => y.tenantKey == k) (x :: xs)
            = List.find? (fun y => y.tenantKey == k) xs :=
          List.find?_cons_of_neg _ hx
        unfold findByKey at hf ⊢
        rwa [hfc] at hf
      unfold replaceFirst
      rw [if_neg hx]
      simp [ih r hf2 hid]

/-- PUT /settings merges only `general`/`notifications`/`business` into
the matched document, so when the tenant key matches an existing
document, no identity field of any stored document changes. -/
theorem putSettingsHandler_identity (k : String) (gb : GeneralBody)
    (store : List SettingsRec) (r : SettingsRec) (hf : findByKey store k = some r) :
    ((putSettingsHandler true k gb store).2).map identityOf = store.map identityOf := by
  have h2 : (putSettingsHandler true k gb store).2
      = replaceFirst (fun x => x.tenantKey == k)
          { r with general := applyGroup r.general gb.general,
                   notifications := applyGroup r.notifications gb.notifications,
                   business := applyGroup r.business gb.business } store := by
    simp [putSettingsHandler, hf]
  rw [h2]
  exact replaceFirst_identity k _ store r hf rfl

/-- C6 (counterexample): POST /settings/ui-preferences overwrites an
already-set `instanceId` on an existing record with the request's value,
so identity fields are not written only when missing. -/
theorem c6_identity_overwrite_counterexample :
    (postUiPreferences "new" "w"
        emptyUiPrefBody
        { (newSettings "yoga-old-w") with instanceId := "old", compId := "w" }).instanceId
      = "new"
    ∧ ({ (newSettings "yoga-old-w") with
         instanceId := "old", compId := "w" } : SettingsRec).instanceId = "old" := by
  refine ⟨by decide, rfl⟩

/-- C6 (amended): the register handler repairs `instanceId`/`compId`
only when missing and both handlers never touch `tenantKey`, but
POST /settings/ui-preferences overwrites `instanceId` and `compId`
with the request's values whenever the request carries them (retaining
them only when the request omits them).  The remaining settings writes
never alter identity fields of stored documents: the premium-plan bulk
update (PUT /settings/ui-preferences) in every branch, and the
dashboard update (PUT /settings) whenever its tenant key matches an
existing document. -/
theorem c6_identity_fields_amended (i c : String) (b : UiPrefBody) (s : SettingsRec) :
    (registerExisting i c s).tenantKey = s.tenantKey
    ∧ (s.instanceId ≠ "" → (registerExisting i c s).instanceId = s.instanceId)
    ∧ (s.compId ≠ "" → (registerExisting i c s).compId = s.compId)
    ∧ (s.instanceId = "" → (registerExisting i c s).instanceId = i)
    ∧ (postUiPreferences i c b s).tenantKey = s.tenantKey
    ∧ (i ≠ "" → (postUiPreferences i c b s).instanceId = i)
    ∧ (i = "" → (postUiPreferences i c b s).instanceId = s.instanceId)
    ∧ (c ≠ "" → (postUiPreferences i c b s).compId = c)
    ∧ (c = "" → (postUiPreferences i c b s).compId = s.compId)
    ∧ (∀ (db : Bool) (p : String) (store : List SettingsRec),
        ((putUiPreferencesHandler db i p store).2).map identityOf = store.map identityOf)
    ∧ (∀ (k : String) (gb : GeneralBody) (store : List SettingsRec) (r : SettingsRec),
        findByKey store k = some r →
        ((putSettingsHandler true k gb store).2).map identityOf = store.map identityOf) := by
  refine ⟨registerExisting_tenantKey i c s, ?_, ?_, ?_,
    postUiPreferences_tenantKey i c b s, ?_, ?_, ?_, ?_,
    fun db p store => putUiPreferencesHandler_identity db i p store,
    fun k gb store r hf => putSettingsHandler_identity k gb store r hf⟩ <;>
    intro h <;>
    simp [registerExisting_instanceId, registerExisting_compId,
      postUiPreferences_instanceId, postUiPreferences_compId, h]

/-- C6 (witness): the amended statement at concrete inputs. -/
theorem c6_identity_fields_witness :
    (registerExisting "i1" "c1" (newSettings "k")).instanceId = "i1"
    ∧ (postUiPreferences "i1" "c1" emptyUiPrefBody (newSettings "k")).instanceId = "i1"
    ∧ (postUiPreferences "i1" "c1" emptyUiPrefBody (newSettings "k")).tenantKey = "k"
    ∧ ((putUiPreferencesHandler true "i1" "light" [newSettings "k"]).2).map identityOf
        = ([newSettings "k"]).map identityOf
    ∧ ((putSettingsHandler true "k" ⟨none, none, none⟩ [newSettings "k"]).2).map identityOf
        = ([newSettings "k"]).map identityOf := by
  have h := c6_identity_fields_amended "i1" "c1" emptyUiPrefBody (newSettings "k")
  exact ⟨h.2.2.2.1 rfl, h.2.2.2.2.2.1 (by decide), h.2.2.2.2.1,
    h.2.2.2.2.2.2.2.2.2.1 true "light" [newSettings "k"],
    h.2.2.2.2.2.2.2.2.2.2 "k" ⟨none, none, none⟩ [newSettings "k"] (newSettings "k")
      (by decide)⟩

/-! ## C7: frame property of partial updates -/

/-- C7 (counterexample): supplying only `appearance.primaryColor`
changes the `uiPreferences` group (the handler mirrors the colour into
`uiPreferences.primaryColor`), so a preference group not mentioned in
the request does not always retain its prior value. -/
theorem c7_partial_update_counterexample :
    (postUiPreferences "" ""
        { emptyUiPrefBody with appearance := some [("primaryColor", "#111111")] }
        { (newSettings "k") with
          uiPreferences := some ⟨[("primaryColor", "#000000")]⟩ }).uiPreferences
      = some ⟨[("primaryColor", "#111111")]⟩
    ∧ ({ emptyUiPrefBody with
         appearance := some [("primaryColor", "#111111")] } : UiPrefBody).uiPreferences
      = none
    ∧ (postUiPreferences "" ""
        { emptyUiPrefBody with appearance := some [("primaryColor", "#111111")] }
        { (newSettings "k") with
          uiPreferences := some ⟨[("primaryColor", "#000000")]⟩ }).uiPreferences
      ≠ some ⟨[("primaryColor", "#000000")]⟩ := by
  refine ⟨by decide, rfl, by decide⟩

/-- C7 (amended): preference groups absent from the request retain their
prior value, except that a supplied `appearance` group is mirrored into
`uiPreferences`: `uiPreferences` is unchanged only when the request
mentions neither it nor `appearance`, and supplying
`appearance.primaryColor` rewrites `uiPreferences.primaryColor`. -/
theorem c7_partial_update_amended (i c : String) (b : UiPrefBody) (s : SettingsRec)
    (v : String) :
    (b.layout = none → (postUiPreferences i c b s).layout = s.layout)
    ∧ (b.appearance = none → (postUiPreferences i c b s).appearance = s.appearance)
    ∧ (b.calendar = none → (postUiPreferences i c b s).calendar = s.calendar)
    ∧ (b.behavior = none → (postUiPreferences i c b s).behavior = s.behavior)
    ∧ (b.uiPreferences = none → b.appearance = none →
        (postUiPreferences i c b s).uiPreferences = s.uiPreferences)
    ∧ (postUiPreferences i c
        { emptyUiPrefBody with appearance := some [("primaryColor", v)] } s).uiPreferences
      = some ((s.uiPreferences.getD ⟨[]⟩).set "primaryColor" v) := by
  refine ⟨?_, ?_, ?_, ?_, ?_, ?_⟩
  · intro h
    simp [postUiPreferences_layout, h, applyGroup]
  · intro h
    exact postUiPreferences_appearance_none i c b s h
  · intro h
    simp [postUiPreferences_calendar, h, applyGroup]
  · intro h
    simp [postUiPreferences_behavior, h, applyGroup]
  · intro h1 h2
    exact postUiPreferences_ui_none i c b s h1 h2
  · rw [postUiPreferences_ui_mirror i c _ s [("primaryColor", v)] rfl rfl]
    simp [applyAppearance]

/-- C7 (witness): the amended statement at concrete inputs. -/
theorem c7_partial_update_witness :
    (postUiPreferences "" "" emptyUiPrefBody (newSettings "k")).layout
      = (newSettings "k").layout
    ∧ (postUiPreferences "" ""
        { emptyUiPrefBody with appearance := some [("primaryColor", "#222222")] }
        (newSettings "k")).uiPreferences
      = some (((newSettings "k").uiPreferences.getD ⟨[]⟩).set "primaryColor" "#222222") := by
  have h := c7_partial_update_amended "" "" emptyUiPrefBody (newSettings "k") "#222222"
  exact ⟨h.1 rfl, h.2.2.2.2.2⟩

/-! ## C5: the default sentinel key -/

/-- A falsy-or-absent first operand with an absent second operand stays
falsy under JS `||`. -/
theorem isTruthy_jsOr_none {a : Option String} (h : isTruthy a = false) :
    isTruthy (jsOr a none) = false := by
  cases a with
  | none => rfl
  | some s =>
    simp only [isTruthy, decide_eq_false_iff_not, Decidable.not_not] at h
    simp [jsOr, h, isTruthy]

/-- C5 (counterexample): a request recovering neither a compId nor an
instance credential, but carrying an `x-tenant-id` header, is keyed by
that header's value instead of the fixed default sentinel — so the key
is not independent of the other headers. -/
theorem c5_default_key_counterexample :
    attachTenantInfo (fun _ => none)
      { headerCompId := none, queryCompId := none, headerInstance := none,
        queryInstance := none, headerTenantId := some "tenant-x" } = "tenant-x"
    ∧ attachTenantInfo (fun _ => none)
      { headerCompId := none, queryCompId := none, headerInstance := none,
        queryInstance := none, headerTenantId := some "tenant-x" } ≠ "default"
    ∧ isTruthy ((extractTenantInfo (fun _ => none)
      { headerCompId := none, queryCompId := none, headerInstance := none,
        queryInstance := none, headerTenantId := some "tenant-x" }).compId) = false
    ∧ isTruthy ((extractTenantInfo (fun _ => none)
      { headerCompId := none, queryCompId := none, headerInstance := none,
        queryInstance := none, headerTenantId := some "tenant-x" }).instanceVal) = false := by
  refine ⟨by decide, by decide, by decide, by decide⟩

/-- JS `a || b` is falsy when both operands are falsy. -/
theorem isTruthy_jsOr {a : Option String} (b : Option String)
    (ha : isTruthy a = false) (hb : isTruthy b = false) :
    isTruthy (jsOr a b) = false := by
  cases a with
  | none => simpa [jsOr] using hb
  | some s =>
    simp only [isTruthy, decide_eq_false_iff_not, Decidable.not_not] at ha
    simpa [jsOr, ha] using hb

/-- JS `a || b` returns `b` when `a` is falsy. -/
theorem jsOr_falsy_left {a : Option String} (b : Option String)
    (ha : isTruthy a = false) : jsOr a b = b := by
  cases a with
  | none => rfl
  | some s =>
    simp only [isTruthy, decide_eq_false_iff_not, Decidable.not_not] at ha
    simp [jsOr, ha]

/-- When no compId was recovered, the attached key reduces to the
tenantId branch of the middleware. -/
theorem attachTenantInfo_of_noComp (decode : String → Option InstanceData) (r : TenantReq)
    (hcomp : isTruthy ((extractTenantInfo decode r).compId) = false) :
    attachTenantInfo decode r
      = (if isTruthy ((extractTenantInfo decode r).tenantId) = true
         then ((extractTenantInfo decode r).tenantId).getD ""
         else "default") := by
  unfold attachTenantInfo
  simp [hcomp]

/-- C5 (amended): for every request recovering no compId, the attached
key is determined as follows.  If the `x-tenant-id` header is truthy its
value becomes the key.  Otherwise, if a truthy instance token is present
and decodes to a truthy id (`instanceId`, else `siteOwnerId`, else
`uid`), that id becomes the key.  Otherwise — `x-tenant-id` falsy, and
any present instance token undecodable or decoding to no truthy id —
the middleware attaches the fixed `"default"` key.  Independently,
`computeTenantKey` returns `"default"` for every request without an
instanceId, regardless of compId. -/
theorem c5_default_key_amended (decode : String → Option InstanceData) (r : TenantReq)
    (c : Option String)
    (hc : isTruthy (jsOr r.headerCompId r.queryCompId) = false) :
    (isTruthy r.headerTenantId = false →
      (∀ s, jsOr r.headerInstance r.queryInstance = some s → s ≠ "" →
        isTruthy (match decode s with
          | some d => jsOr d.instanceId (jsOr d.siteOwnerId d.uid)
          | none => none) = false) →
      attachTenantInfo decode r = "default")
    ∧ (isTruthy r.headerTenantId = true →
        attachTenantInfo decode r = r.headerTenantId.getD "")
    ∧ (∀ s v, isTruthy r.headerTenantId = false →
        jsOr r.headerInstance r.queryInstance = some s → s ≠ "" →
        (match decode s with
         | some d => jsOr d.instanceId (jsOr d.siteOwnerId d.uid)
         | none => none) = some v → v ≠ "" →
        attachTenantInfo decode r = v)
    ∧ computeTenantKey "" c = "default" := by
  have hcompId : isTruthy ((extractTenantInfo decode r).compId) = false := by
    simpa [extractTenantInfo] using hc
  refine ⟨?_, ?_, ?_, by simp [computeTenantKey]⟩
  · intro ht hinst
    have htid : isTruthy ((extractTenantInfo decode r).tenantId) = false := by
      cases hji : jsOr r.headerInstance r.queryInstance with
      | none =>
        have h1 : (extractTenantInfo decode r).tenantId = jsOr r.headerTenantId none := by
          simp [extractTenantInfo, hji]
        rw [h1]
        exact isTruthy_jsOr none ht rfl
      | some s =>
        by_cases hs : s = ""
        · subst hs
          have h1 : (extractTenantInfo decode r).tenantId = jsOr r.headerTenantId none := by
            simp [extractTenantInfo, hji, isTruthy]
          rw [h1]
          exact isTruthy_jsOr none ht rfl
        · have hch := hinst s hji hs
          cases hd : decode s with
          | none =>
            have h1 : (extractTenantInfo decode r).tenantId
                = jsOr r.headerTenantId none := by
              simp [extractTenantInfo, hji, hs, isTruthy, hd]
            rw [h1]
            exact isTruthy_jsOr none ht rfl
          | some d =>
            have h1 : (extractTenantInfo decode r).tenantId
                = jsOr r.headerTenantId (jsOr d.instanceId (jsOr d.siteOwnerId d.uid)) := by
              simp [extractTenantInfo, hji, hs, isTruthy, hd]
            rw [h1]
            rw [hd] at hch
            exact isTruthy_jsOr _ ht hch
    simp [attachTenantInfo, hcompId, htid]
  · intro htt
    cases hht : r.headerTenantId with
    | none =>
      rw [hht] at htt
      simp [isTruthy] at htt
    | some s =>
      have hs : s ≠ "" := by
        rw [hht] at htt
        simpa [isTruthy] using htt
      have h1 : (extractTenantInfo decode r).tenantId = some s := by
        simp [extractTenantInfo, hht, jsOr, hs]
      rw [attachTenantInfo_of_noComp decode r hcompId, h1]
      simp [isTruthy, hs]
  · intro s v ht hji hs hchain hv
    have h1 : (extractTenantInfo decode r).tenantId
        = jsOr r.headerTenantId (match decode s with
            | some d => jsOr d.instanceId (jsOr d.siteOwnerId d.uid)
            | none => none) := by
      simp [extractTenantInfo, hji, hs, isTruthy]
    rw [hchain, jsOr_falsy_left _ ht] at h1
    rw [attachTenantInfo_of_noComp decode r hcompId, h1]
    simp [isTruthy, hv]

/-- C5 (witness): the amended statement at three concrete requests — no
identity material at all, a truthy `x-tenant-id` header, and a decodable
instance token. -/
theorem c5_default_key_witness :
    attachTenantInfo (fun _ => none)
      { headerCompId := none, queryCompId := none, headerInstance := none,
        queryInstance := none, headerTenantId := none } = "default"
    ∧ computeTenantKey "" (some "w1") = "default"
    ∧ attachTenantInfo (fun _ => none)
      { headerCompId := none, queryCompId := none, headerInstance := none,
        queryInstance := none, headerTenantId := some "tenant-1" } = "tenant-1"
    ∧ attachTenantInfo
        (fun t => if t = "tok-9"
          then some { instanceId := some "site-9", siteOwnerId := none, uid := none }
          else none)
      { headerCompId := none, queryCompId := none, headerInstance := some "tok-9",
        queryInstance := none, headerTenantId := none } = "site-9" := by
  have h1 := c5_default_key_amended (fun _ => none)
    { headerCompId := none, queryCompId := none, headerInstance := none,
      queryInstance := none, headerTenantId := none }
    (some "w1") (by decide)
  have h2 := c5_default_key_amended (fun _ => none)
    { headerCompId := none, queryCompId := none, headerInstance := none,
      queryInstance := none, headerTenantId := some "tenant-1" }
    (some "w1") (by decide)
  have h3 := c5_default_key_amended
    (fun t => if t = "tok-9"
      then some { instanceId := some "site-9", siteOwnerId := none, uid := none }
      else none)
    { headerCompId := none, queryCompId := none, headerInstance := some "tok-9",
      queryInstance := none, headerTenantId := none }
    (some "w1") (by decide)
  refine ⟨h1.1 (by decide) ?_, h1.2.2.2, h2.2.1 (by decide),
    h3.2.2.1 "tok-9" "site-9" (by decide) (by decide) (by decide) (by decide) (by decide)⟩
  intro s hji hs
  simp [jsOr] at hji

/-! ## C8: compId extraction order -/

/-- Trimming the empty string gives the empty string. -/
theorem jsTrim_empty : jsTrim "" = "" := rfl

/-- The body fallback agrees with the specification's candidate scan. -/
theorem extractCompIdBody_spec (r : CompIdReq) :
    extractCompIdBody r = firstNonEmptyTrimmed [r.bodyCompId] := by
  cases hb : r.bodyCompId <;>
    simp [extractCompIdBody, firstNonEmptyTrimmed, hb]

/-- The legacy-alternates fallback agrees with the specification's scan
provided `comp_id` is usable whenever truthy: the code folds the two
legacy names with JS `||` on the raw values before the
`typeof === 'string'` and trim tests, so a truthy `comp_id` that is a
whitespace-only string or a non-string (array) value masks `comp-id`. -/
theorem extractCompIdAlt_spec (r : CompIdReq)
    (hB : match r.queryCompIdUnderscore with
      | HeaderVal.str s => s ≠ "" → jsTrim s ≠ ""
      | HeaderVal.arr _ => False
      | HeaderVal.missing => True) :
    extractCompIdAlt r
      = firstNonEmptyTrimmed [queryCandidate r.queryCompIdUnderscore,
          queryCandidate r.queryCompIdDash, r.bodyCompId] := by
  have hbody := extractCompIdBody_spec r
  cases hu : r.queryCompIdUnderscore with
  | missing =>
    cases hd : r.queryCompIdDash with
    | missing =>
      simpa [extractCompIdAlt, jsOrV, hu, hd, queryCandidate,
        firstNonEmptyTrimmed] using hbody
    | str d =>
      by_cases hdt : jsTrim d = ""
      · simpa [extractCompIdAlt, jsOrV, hu, hd, queryCandidate,
          firstNonEmptyTrimmed, hdt] using hbody
      · simp [extractCompIdAlt, jsOrV, hu, hd, queryCandidate,
          firstNonEmptyTrimmed, hdt]
    | arr l =>
      simpa [extractCompIdAlt, jsOrV, hu, hd, queryCandidate,
        firstNonEmptyTrimmed] using hbody
  | str u =>
    by_cases hue : u = ""
    · subst hue
      cases hd : r.queryCompIdDash with
      | missing =>
        simpa [extractCompIdAlt, jsOrV, hu, hd, queryCandidate,
          firstNonEmptyTrimmed, jsTrim_empty] using hbody
      | str d =>
        by_cases hdt : jsTrim d = ""
        · simpa [extractCompIdAlt, jsOrV, hu, hd, queryCandidate,
            firstNonEmptyTrimmed, jsTrim_empty, hdt] using hbody
        · simp [extractCompIdAlt, jsOrV, hu, hd, queryCandidate,
            firstNonEmptyTrimmed, jsTrim_empty, hdt]
      | arr l =>
        simpa [extractCompIdAlt, jsOrV, hu, hd, queryCandidate,
          firstNonEmptyTrimmed, jsTrim_empty] using hbody
    · have hut : jsTrim u ≠ "" := by
        rw [hu] at hB
        exact hB hue
      simp [extractCompIdAlt, jsOrV, hu, hue, queryCandidate,
        firstNonEmptyTrimmed, hut]
  | arr l =>
    rw [hu] at hB
    exact hB.elim

/-- The primary query parameter agrees with the specification's scan
(a non-string value fails the `typeof` check and contributes no
candidate on either side). -/
theorem extractCompIdQuery_spec (r : CompIdReq)
    (hB : match r.queryCompIdUnderscore with
      | HeaderVal.str s => s ≠ "" → jsTrim s ≠ ""
      | HeaderVal.arr _ => False
      | HeaderVal.missing => True) :
    extractCompIdQuery r
      = firstNonEmptyTrimmed
          [queryCandidate r.queryCompId, queryCandidate r.queryCompIdUnderscore,
           queryCandidate r.queryCompIdDash, r.bodyCompId] := by
  have halt := extractCompIdAlt_spec r hB
  cases hq : r.queryCompId with
  | missing =>
    simpa [extractCompIdQuery, hq, queryCandidate, firstNonEmptyTrimmed] using halt
  | str q =>
    by_cases hqt : jsTrim q = ""
    · simpa [extractCompIdQuery, hq, queryCandidate, firstNonEmptyTrimmed, hqt] using halt
    · simp [extractCompIdQuery, hq, queryCandidate, firstNonEmptyTrimmed, hqt]
  | arr l =>
    simpa [extractCompIdQuery, hq, queryCandidate, firstNonEmptyTrimmed] using halt

/-- C8 (counterexample): two divergences from the claimed scan, each at
a concrete request.  First, a whitespace-only component-ID header
delivered as an array is returned as the empty string instead of being
skipped, shadowing a usable query-parameter candidate.  Second, an
array-valued `comp_id` is truthy under the pre-`typeof` JS `||` fold, so
it masks a usable `comp-id` and the code falls through to the (absent)
body, returning nothing. -/
theorem c8_extract_compid_counterexample :
    extractCompId
      { headerCompId := HeaderVal.arr [" "], queryCompId := HeaderVal.str "abc",
        queryCompIdUnderscore := HeaderVal.missing, queryCompIdDash := HeaderVal.missing,
        bodyCompId := none }
      = some ""
    ∧ specExtractCompId
      { headerCompId := HeaderVal.arr [" "], queryCompId := HeaderVal.str "abc",
        queryCompIdUnderscore := HeaderVal.missing, queryCompIdDash := HeaderVal.missing,
        bodyCompId := none }
      = some "abc"
    ∧ extractCompId
      { headerCompId := HeaderVal.arr [" "], queryCompId := HeaderVal.str "abc",
        queryCompIdUnderscore := HeaderVal.missing, queryCompIdDash := HeaderVal.missing,
        bodyCompId := none }
      ≠ specExtractCompId
      { headerCompId := HeaderVal.arr [" "], queryCompId := HeaderVal.str "abc",
        queryCompIdUnderscore := HeaderVal.missing, queryCompIdDash := HeaderVal.missing,
        bodyCompId := none }
    ∧ extractCompId
      { headerCompId := HeaderVal.missing, queryCompId := HeaderVal.missing,
        queryCompIdUnderscore := HeaderVal.arr ["x"], queryCompIdDash := HeaderVal.str "y",
        bodyCompId := none }
      = none
    ∧ specExtractCompId
      { headerCompId := HeaderVal.missing, queryCompId := HeaderVal.missing,
        queryCompIdUnderscore := HeaderVal.arr ["x"], queryCompIdDash := HeaderVal.str "y",
        bodyCompId := none }
      = some "y" := by
  refine ⟨by decide, by decide, by decide, by decide, by decide⟩

/-- C8 (amended): compId extraction follows the fixed order
header → primary query parameter → legacy alternates → body with
trimming, whitespace-only candidates skipped and conflicts resolved by
precedence, except in two corner cases the hypotheses exclude: a header
array whose first element is non-empty but whitespace-only is returned
as `""` instead of skipped; and the legacy alternates are folded with
JS `||` on the raw values before the string check, so a truthy `comp_id`
that is not a usable string — a whitespace-only string or a non-string
(array) value — masks `comp-id` and the scan falls through to the
body. -/
theorem c8_extract_compid_amended (r : CompIdReq)
    (hA : ∀ x rest, r.headerCompId = HeaderVal.arr (x :: rest) → x ≠ "" → jsTrim x ≠ "")
    (hB : match r.queryCompIdUnderscore with
      | HeaderVal.str s => s ≠ "" → jsTrim s ≠ ""
      | HeaderVal.arr _ => False
      | HeaderVal.missing => True) :
    extractCompId r = specExtractCompId r := by
  have hquery := extractCompIdQuery_spec r hB
  cases hh : r.headerCompId with
  | missing =>
    simpa [extractCompId, specExtractCompId, specCandidates, headerCandidate, hh,
      firstNonEmptyTrimmed] using hquery
  | str s =>
    by_cases hst : jsTrim s = ""
    · simpa [extractCompId, specExtractCompId, specCandidates, headerCandidate, hh,
        firstNonEmptyTrimmed, hst] using hquery
    · simp [extractCompId, specExtractCompId, specCandidates, headerCandidate, hh,
        firstNonEmptyTrimmed, hst]
  | arr l =>
    cases l with
    | nil =>
      simpa [extractCompId, specExtractCompId, specCandidates, headerCandidate, hh,
        firstNonEmptyTrimmed] using hquery
    | cons x rest =>
      by_cases hx : x = ""
      · subst hx
        simpa [extractCompId, specExtractCompId, specCandidates, headerCandidate, hh,
          firstNonEmptyTrimmed, jsTrim_empty] using hquery
      · have hxt : jsTrim x ≠ "" := hA x rest hh hx
        simp [extractCompId, specExtractCompId, specCandidates, headerCandidate, hh,
          firstNonEmptyTrimmed, hx, hxt]

/-- C8 (witness): the amended statement on a request carrying the header
as an array and a conflicting body value. -/
theorem c8_extract_compid_witness :
    extractCompId
      { headerCompId := HeaderVal.arr ["w-head"], queryCompId := HeaderVal.missing,
        queryCompIdUnderscore := HeaderVal.missing, queryCompIdDash := HeaderVal.missing,
        bodyCompId := some "w-body" }
      = specExtractCompId
      { headerCompId := HeaderVal.arr ["w-head"], queryCompId := HeaderVal.missing,
        queryCompIdUnderscore := HeaderVal.missing, queryCompIdDash := HeaderVal.missing,
        bodyCompId := some "w-body" } := by
  have h := c8_extract_compid_amended
    { headerCompId := HeaderVal.arr ["w-head"], queryCompId := HeaderVal.missing,
      queryCompIdUnderscore := HeaderVal.missing, queryCompIdDash := HeaderVal.missing,
      bodyCompId := some "w-body" }
    (by intro x rest hx hne; cases hx; decide)
    (by trivial)
  exact h

/-! ## C9: the token-verification cache -/

/-- C9 (counterexample): the cache fingerprint is the last 20 characters
of the credential, so two distinct credentials sharing that suffix
collide — after verifying the first, a lookup for the second hits the
cache and returns the first credential's identity fields, not what a
fresh verification of the second would produce. -/
theorem c9_cache_counterexample :
    (let oracle : String → Option WixVerifyResult := fun u =>
       if u = "A01234567890123456789" then some ⟨"site-A", none, none⟩
       else if u = "B01234567890123456789" then some ⟨"site-B", none, none⟩
       else none;
     let cache1 := (verifyAccessToken oracle [] "A01234567890123456789").2;
     tokenFingerprint "A01234567890123456789" = tokenFingerprint "B01234567890123456789"
     ∧ ("A01234567890123456789" : String) ≠ "B01234567890123456789"
     ∧ cacheGet cache1 (tokenCacheKey "B01234567890123456789")
         = some ⟨"site-A", none, none⟩
     ∧ (verifyAccessToken oracle cache1 "B01234567890123456789").1
         = some ⟨"site-A", none, none⟩
     ∧ oracle "B01234567890123456789" = some ⟨"site-B", none, none⟩
     ∧ (⟨"site-A", none, none⟩ : WixVerifyResult) ≠ ⟨"site-B", none, none⟩) := by
  decide

/-- Reading a cache with a fresh entry in front. -/
theorem cacheGet_cons (k0 : String) (v0 : WixVerifyResult) (c : TokenCache) (k : String) :
    cacheGet ((k0, v0) :: c) k = if (k0 == k) = true then some v0 else cacheGet c k := by
  by_cases h : (k0 == k) = true
  · have hf : List.find? (fun e => e.1 == k) ((k0, v0) :: c) = some (k0, v0) :=
      List.find?_cons_of_pos _ h
    rw [if_pos h]
    unfold cacheGet
    rw [hf]
    rfl
  · have hf : List.find? (fun e => e.1 == k) ((k0, v0) :: c)
        = List.find? (fun e => e.1 == k) c :=
      List.find?_cons_of_neg _ h
    rw [if_neg h]
    unfold cacheGet
    rw [hf]

/-- C9 (amended): when every cache entry stems from a successful
verification, a cache hit returns byte-identical identity fields to what
a fresh verification of *some* credential with the same 20-character
suffix fingerprint produced (the same credential only when fingerprints
do not collide), and verification preserves that cache consistency. -/
theorem c9_cache_amended (oracle : String → Option WixVerifyResult) (cache : TokenCache)
    (t : String) (hcons : CacheConsistent oracle cache) :
    (∀ v, cacheGet cache (tokenCacheKey t) = some v →
        (verifyAccessToken oracle cache t).1 = some v
        ∧ ∃ u, tokenFingerprint u = tokenFingerprint t ∧ oracle u = some v)
    ∧ CacheConsistent oracle (verifyAccessToken oracle cache t).2 := by
  constructor
  · intro v hv
    refine ⟨by simp [verifyAccessToken, hv], ?_⟩
    obtain ⟨u, hu1, hu2⟩ := hcons _ _ hv
    refine ⟨u, ?_, hu2⟩
    simp only [tokenCacheKey] at hu1
    exact string_append_cancel hu1
  · cases hg : cacheGet cache (tokenCacheKey t) with
    | some v => simpa [verifyAccessToken, hg] using hcons
    | none =>
      cases ho : oracle t with
      | none => simpa [verifyAccessToken, hg, ho] using hcons
      | some rr =>
        simp only [verifyAccessToken, hg, ho]
        intro k v hkv
        by_cases hk : tokenCacheKey t = k
        · subst hk
          rw [show cacheSet cache (tokenCacheKey t) rr = (tokenCacheKey t, rr) :: cache
              from rfl, cacheGet_cons, if_pos (beq_self_eq_true _)] at hkv
          exact ⟨t, rfl, by rw [ho, Option.some.inj hkv]⟩
        · have hbk : ¬ ((tokenCacheKey t == k) = true) := by
            simp [hk]
          rw [show cacheSet cache (tokenCacheKey t) rr = (tokenCacheKey t, rr) :: cache
              from rfl, cacheGet_cons, if_neg hbk] at hkv
          exact hcons k v hkv

/-- C9 (witness): the amended statement for a fresh cache populated by
one verification. -/
theorem c9_cache_witness :
    CacheConsistent
      (fun u => if u = "tok-A-0123456789012345" then some ⟨"site-A", none, none⟩ else none)
      ((verifyAccessToken
        (fun u => if u = "tok-A-0123456789012345" then some ⟨"site-A", none, none⟩ else none)
        [] "tok-A-0123456789012345").2) := by
  have h := c9_cache_amended
    (fun u => if u = "tok-A-0123456789012345" then some ⟨"site-A", none, none⟩ else none)
    [] "tok-A-0123456789012345"
    (by intro k v hv; simp [cacheGet] at hv)
  exact h.2

/-! ## C1: the settings lookup/creation chain of the widget-data handler -/

/-- Finding by an exact key inside the documents pre-filtered by a key
list containing that key is the same as finding in the whole store. -/
theorem find?_filter_keyEq (store : List SettingsRec) (keys : List String) (k : String)
    (hk : keys.contains k = true) :
    (store.filter (fun r => keys.contains r.tenantKey)).find? (fun r => r.tenantKey == k)
      = store.find? (fun r => r.tenantKey == k) := by
  induction store with
  | nil => rfl
  | cons x xs ih =>
    by_cases hx : (x.tenantKey == k) = true
    · have hxeq : x.tenantKey = k := by simpa using hx
      have hcont : keys.contains x.tenantKey = true := by rw [hxeq]; exact hk
      have hmem : x.tenantKey ∈ keys := by simpa using hcont
      have hfc : List.filter (fun r => keys.contains r.tenantKey) (x :: xs)
          = x :: List.filter (fun r => keys.contains r.tenantKey) xs := by
        simp [List.filter_cons, hmem]
      have hd1 : List.find? (fun r => r.tenantKey == k)
          (x :: List.filter (fun r => keys.contains r.tenantKey) xs) = some x :=
        List.find?_cons_of_pos _ hx
      have hd2 : List.find? (fun r => r.tenantKey == k) (x :: xs) = some x :=
        List.find?_cons_of_pos _ hx
      rw [hfc, hd1, hd2]
    · have hd2 : List.find? (fun r => r.tenantKey == k) (x :: xs)
          = List.find? (fun r => r.tenantKey == k) xs :=
        List.find?_cons_of_neg _ hx
      by_cases hcont : (keys.contains x.tenantKey) = true
      · have hmem : x.tenantKey ∈ keys := by simpa using hcont
        have hfc : List.filter (fun r => keys.contains r.tenantKey) (x :: xs)
            = x :: List.filter (fun r => keys.contains r.tenantKey) xs := by
          simp [List.filter_cons, hmem]
        have hd1 : List.find? (fun r => r.tenantKey == k)
            (x :: List.filter (fun r => keys.contains r.tenantKey) xs)
            = List.find? (fun r => r.tenantKey == k)
                (List.filter (fun r => keys.contains r.tenantKey) xs) :=
          List.find?_cons_of_neg _ hx
        rw [hfc, hd1, hd2, ih]
      · have hmem : x.tenantKey ∉ keys := by simpa using hcont
        have hfc : List.filter (fun r => keys.contains r.tenantKey) (x :: xs)
            = List.filter (fun r => keys.contains r.tenantKey) xs := by
          simp [List.filter_cons, hmem]
        rw [hfc, hd2, ih]

/-- C1 (counterexample): with a record stored under the same instanceId
but a different widget's key, the handler returns that record through
the interposed raw-`instanceId` fallback and creates nothing, while the
claim's three-step algorithm would auto-create a record under the exact
key — so a lookup step *is* interposed between step 2 and step 3. -/
theorem c1_locator_counterexample :
    widgetDataCase3 "i" "w1" [mkAutoSettings "yoga-i-w2" "i" "w2" "free"]
      ≠ specLocateClaim "i" "w1" [mkAutoSettings "yoga-i-w2" "i" "w2" "free"]
    ∧ (widgetDataCase3 "i" "w1" [mkAutoSettings "yoga-i-w2" "i" "w2" "free"]).store
      = [mkAutoSettings "yoga-i-w2" "i" "w2" "free"]
    ∧ (widgetDataCase3 "i" "w1" [mkAutoSettings "yoga-i-w2" "i" "w2" "free"]).found
      = some (mkAutoSettings "yoga-i-w2" "i" "w2" "free")
    ∧ (specLocateClaim "i" "w1" [mkAutoSettings "yoga-i-w2" "i" "w2" "free"]).store.length
      = 2 := by
  refine ⟨by decide, by decide, by decide, by decide⟩

/-- C1 (amended): for every request carrying an instanceId the handler
follows the ordered chain: exact `(instanceId, compId)` key, then (when
compId was supplied) the instanceId-only key, then any record with the
same raw `instanceId`, then any record with the same raw `compId`, and
only then auto-creates under the exact key with the tier inherited from
records sharing the instanceId (default `'free'`). -/
theorem c1_locator_amended (instanceId compId : String) (store : List SettingsRec)
    (hi : instanceId ≠ "") :
    widgetDataCase3 instanceId compId store = specLocateAmended instanceId compId store := by
  by_cases hc : compId = ""
  · subst hc
    simp only [widgetDataCase3, widgetDataCase3Read, specLocateAmended, findByKey]
    rw [show optCompId "" = none from rfl]
    rw [if_neg (show ¬ (computeTenantKey instanceId none ≠ computeTenantKey instanceId none)
      from fun h => h rfl)]
    rw [find?_filter_keyEq store [computeTenantKey instanceId none]
      (computeTenantKey instanceId none) (by simp)]
    cases h1 : store.find? (fun r => r.tenantKey == computeTenantKey instanceId none) with
    | some r => simp [hi]
    | none =>
      cases h2 : store.find? (fun r => r.instanceId == instanceId) with
      | some r => simp [hi]
      | none => simp [hi]
  · have hdk := computeTenantKey_some_ne_none instanceId compId hi hc
    simp only [widgetDataCase3, widgetDataCase3Read, specLocateAmended, findByKey]
    rw [show optCompId compId = some compId from if_neg hc]
    rw [if_pos (show computeTenantKey instanceId none ≠ computeTenantKey instanceId (some compId)
      from fun h => hdk h.symm)]
    rw [find?_filter_keyEq store
        [computeTenantKey instanceId (some compId), computeTenantKey instanceId none]
        (computeTenantKey instanceId (some compId)) (by simp),
      find?_filter_keyEq store
        [computeTenantKey instanceId (some compId), computeTenantKey instanceId none]
        (computeTenantKey instanceId none) (by simp)]
    cases h1 : store.find?
        (fun r => r.tenantKey == computeTenantKey instanceId (some compId)) with
    | some r => simp [hi, hc]
    | none =>
      cases h2 : store.find? (fun r => r.tenantKey == computeTenantKey instanceId none) with
      | some r => simp [hi, hc]
      | none =>
        cases h3 : store.find? (fun r => r.instanceId == instanceId) with
        | some r => simp [hi, hc]
        | none =>
          cases h4 : store.find? (fun r => r.compId == compId) with
          | some r => simp [hi, hc]
          | none => simp [hi, hc]

/-- C1 (witness): the amended statement on an empty store. -/
theorem c1_locator_witness :
    widgetDataCase3 "i" "w1" [] = specLocateAmended "i" "w1" [] :=
  c1_locator_amended "i" "w1" [] (by decide)

/-! ## C3: the auto-create race -/

/-- The CASE 3 read over an empty store finds nothing. -/
theorem widgetDataCase3Read_nil (instanceId compId : String) :
    widgetDataCase3Read instanceId compId [] = none := by
  simp [widgetDataCase3Read]

/-- The CASE 3 read finds a first record stored under the exact key. -/
theorem widgetDataCase3Read_cons_hit (instanceId compId : String) (r : SettingsRec)
    (tl : List SettingsRec)
    (hr : r.tenantKey = computeTenantKey instanceId (optCompId compId)) :
    widgetDataCase3Read instanceId compId (r :: tl) = some r := by
  simp only [widgetDataCase3Read]
  simp [List.filter_cons, List.find?_cons, hr]

/-- C3 (counterexample): the interleaving read-read-insert-insert of two
first requests for the pair `("abc","xyz")` creates two documents under
the same tenant key, and the `(tenantKey, compId)` index carries no
uniqueness constraint — creation is an unguarded read-then-insert. -/
theorem c3_creation_race_counterexample :
    ¬ (countForKey ((raceRun "abc" "xyz" [true, false, true, false] (initRace [])).store)
        (computeTenantKey "abc" (some "xyz")) ≤ 1)
    ∧ settingsTenantCompIdIndexUnique = false := by
  refine ⟨by decide, rfl⟩

/-- C3 (amended): the auto-create step is an unguarded read-then-insert
with no uniqueness constraint on the index: under the interleaved
schedule two concurrent first requests for a fresh pair each insert a
document for the key (two documents result), while serialized execution
inserts exactly one. -/
theorem c3_creation_race_amended (instanceId compId : String)
    (hi : instanceId ≠ "") (hc : compId ≠ "") :
    countForKey ((raceRun instanceId compId [true, false, true, false] (initRace [])).store)
        (computeTenantKey instanceId (optCompId compId)) = 2
    ∧ countForKey ((raceRun instanceId compId [true, true, false, false] (initRace [])).store)
        (computeTenantKey instanceId (optCompId compId)) = 1
    ∧ settingsTenantCompIdIndexUnique = false := by
  have h0 : widgetDataCase3Read instanceId compId [] = none :=
    widgetDataCase3Read_nil instanceId compId
  have ha1 : (autoCreateRec instanceId compId []).tenantKey
      = computeTenantKey instanceId (optCompId compId) := rfl
  have hhit : widgetDataCase3Read instanceId compId [autoCreateRec instanceId compId []]
      = some (autoCreateRec instanceId compId []) :=
    widgetDataCase3Read_cons_hit instanceId compId _ _ ha1
  refine ⟨?_, ?_, rfl⟩
  · simp [raceRun, raceStep, threadStep, initRace, h0, countForKey, List.filter_cons,
      autoCreateRec, mkAutoSettings, newSettings, hi, hc]
  · simp [raceRun, raceStep, threadStep, initRace, h0, hhit, countForKey, List.filter_cons,
      ha1, hi, hc]

/-- C3 (witness): the amended statement at the concrete fresh pair. -/
theorem c3_creation_race_witness :
    countForKey ((raceRun "abc" "xyz" [true, false, true, false] (initRace [])).store)
        (computeTenantKey "abc" (optCompId "xyz")) = 2
    ∧ countForKey ((raceRun "abc" "xyz" [true, true, false, false] (initRace [])).store)
        (computeTenantKey "abc" (optCompId "xyz")) = 1
    ∧ settingsTenantCompIdIndexUnique = false :=
  c3_creation_race_amended "abc" "xyz" (by decide) (by decide)

/-! ## C10: editor-mode access by compId alone -/

/-- C10 (confirmed): a request with a compId but no authenticated
instanceId is dispatched to CASE 2, which serves the first stored record
matching that compId across all instanceIds (preference groups, business
settings and premium plan from that record), and the response is
invariant under arbitrarily rewriting the instanceId of every stored
record — no ownership of the owning instanceId is required. -/
theorem c10_editor_mode_access (compId : String) (store : List SettingsRec)
    (hc : compId ≠ "") :
    widgetDataCaseOf "" compId = WidgetDataCase.case2
    ∧ (∀ r, store.find? (fun x => x.compId == compId) = some r →
        widgetDataCase2 compId store = case2SettingsOf r)
    ∧ (∀ g : String → String,
        widgetDataCase2 compId
          (store.map (fun r => { r with instanceId := g r.instanceId }))
          = widgetDataCase2 compId store) := by
  refine ⟨?_, ?_, ?_⟩
  · simp [widgetDataCaseOf, hc]
  · intro r hr
    simp [widgetDataCase2, hr]
  · intro g
    have hfm : (store.map (fun r => { r with instanceId := g r.instanceId })).find?
        (fun x => x.compId == compId)
        = (store.find? (fun x => x.compId == compId)).map
            (fun r => { r with instanceId := g r.instanceId }) := by
      rw [List.find?_map]
      rfl
    cases hf : store.find? (fun x => x.compId == compId) with
    | none => simp [widgetDataCase2, hfm, hf]
    | some r => simp [widgetDataCase2, hfm, hf, case2SettingsOf, readGroup]

/-- C10 (witness): the theorem at a concrete store whose only record is
owned by instance `"s"`. -/
theorem c10_editor_mode_witness :
    widgetDataCaseOf "" "w9" = WidgetDataCase.case2
    ∧ widgetDataCase2 "w9" [mkAutoSettings "yoga-s-w9" "s" "w9" "light"]
        = case2SettingsOf (mkAutoSettings "yoga-s-w9" "s" "w9" "light") := by
  have h := c10_editor_mode_access "w9" [mkAutoSettings "yoga-s-w9" "s" "w9" "light"]
    (by decide)
  exact ⟨h.1, h.2.1 _ (by decide)⟩

end YogaSaas
